import Mathlib

set_option maxRecDepth 8000

/-!
Shallow embedding of the screen-state classification engine and readiness
orchestrator of the jnj-android repository:

* `src/backend/python/src/waydroid/weston.py`
  (`WestonController.detect_weston_screen_state`),
* `src/backend/python/src/apps/rok/rok_controller.py`
  (`GameController.is_weston_locked`, `_unlock_weston`, `_perform_startup_taps`,
  `wait_for_game_ready`, `is_in_main_game`, `start_game`),
* `src/backend/python/src/apps/rok/ui_config.py` (`UIConfig`).

External effects (process liveness queries, screenshot capture, ADB commands)
are passed in as booleans, oracle streams (`Nat → Bool`, indexed by successive
calls), and decoded frames.  Python `dict.get(key, default)` configuration reads
become `Option` fields with `getD`.  Python float arithmetic on small ratios is
modelled exactly with rationals (`mkRat`), and wall-clock time in the startup tap
sequence is modelled in tenths of a second of simulated time.
-/

/-- A decoded RGB pixel (from PIL `Image.getpixel`). -/
structure Pixel where
  r : Int
  g : Int
  b : Int
deriving DecidableEq

/-- A decoded screenshot: dimensions plus pixel lookup. -/
structure Frame where
  width : Int
  height : Int
  px : Int → Int → Pixel

/-- Window geometry (x, y, width, height), as parsed from xwininfo or config. -/
structure Geom where
  x : Int
  y : Int
  w : Int
  h : Int
deriving DecidableEq

/-- One channel interval from a JSON `color_range` entry; absent keys are `none`. -/
structure ChanRange where
  min? : Option Int := none
  max? : Option Int := none
deriving DecidableEq

/-- JSON `color_range` dict with `r`, `g`, `b` sub-dicts. -/
structure ColorRange where
  r : ChanRange := {}
  g : ChanRange := {}
  b : ChanRange := {}
deriving DecidableEq

/-- JSON `threshold` dict: `ratio` (a float, modelled exactly as a rational) and
`min_pixels`. -/
structure Threshold where
  ratioVal : Option ℚ := none
  min_pixels? : Option Int := none
deriving DecidableEq

/-- JSON `x_range` / `y_range` dicts with `min`, `max`, `step`. -/
structure AxisRange where
  min? : Option Int := none
  max? : Option Int := none
  step? : Option Int := none
deriving DecidableEq

/-- JSON `sample_area` dict; the black-screen rule uses `x_range`/`y_range`, the
lock-button rule uses `width`/`height`, the menu-marker rule uses `offsets`. -/
structure SampleArea where
  x_range : AxisRange := {}
  y_range : AxisRange := {}
  width? : Option Int := none
  height? : Option Int := none
  offsets? : Option (List Int) := none
deriving DecidableEq

/-- JSON `detection` dict of a UI element. -/
structure Detection where
  sample_area : SampleArea := {}
  color_range : ColorRange := {}
  threshold : Threshold := {}
deriving DecidableEq

/-- JSON `position` / `tap_position` dict. -/
structure Position where
  x? : Option Int := none
  y? : Option Int := none
deriving DecidableEq

/-- One step of the configured unlock sequence
(`step.get("action")`, `step.get("target")`, `step.get("wait_after", 0)`). -/
structure UnlockStep where
  action : Option String := none
  target : Option String := none
  wait_after : ℚ := 0
deriving DecidableEq

/-- JSON `retry` dict of the unlock sequence. -/
structure RetryCfg where
  max_attempts? : Option Int := none
  verify_after_each? : Option Bool := none
deriving DecidableEq

/-- JSON `unlock_sequence` dict. -/
structure UnlockSeq where
  steps? : Option (List UnlockStep) := none
  retry? : Option RetryCfg := none
deriving DecidableEq

/-- A configured UI element: position, detection rule, tap position. -/
structure Element where
  position : Position := {}
  detection : Detection := {}
  tap_position : Position := {}
deriving DecidableEq

/-- JSON `window.default_geometry` dict. -/
structure GeometryCfg where
  x? : Option Int := none
  y? : Option Int := none
  width? : Option Int := none
  height? : Option Int := none
deriving DecidableEq

/-- `ui_weston.json` as the code reads it: `window.default_geometry`,
`elements.black_screen`, `elements.button_unlock` (a missing key and an empty
dict are both `none`, which the classifier skips via truthiness), and
`unlock_sequence`. -/
structure WestonCfg where
  default_geometry : GeometryCfg := {}
  black_screen? : Option Element := none
  button_unlock? : Option Element := none
  unlock_sequence : UnlockSeq := {}
deriving DecidableEq

/-- The parts of `ui_rok_button.json` the core reads: `buttons.menu_main` and
`buttons.tap_to_start`. -/
structure RokCfg where
  menu_main : Element := {}
  tap_to_start : Element := {}
deriving DecidableEq

/-- Python `range(start, stop, step)` for a positive step (the code only ever
uses positive steps; Python raises on `step == 0`). -/
def pythonRange (start stop step : Int) : List Int :=
  if 0 < step then
    (List.range ((stop - start + step - 1).fdiv step).toNat).map
      (fun i => start + step * (i : Int))
  else []

/-- The bounds check `0 <= x < width and 0 <= y < height` guarding every
`getpixel` call. -/
def inBounds (f : Frame) (x y : Int) : Bool :=
  decide (0 ≤ x ∧ x < f.width ∧ 0 ≤ y ∧ y < f.height)

/-- The matched/total counting shared by every detection rule: `total` counts
only in-bounds sample coordinates; `matched` counts the in-bounds samples whose
pixel satisfies the predicate. -/
def ruleStats (f : Frame) (coords : List (Int × Int)) (p : Pixel → Bool) : Nat × Nat :=
  let inb := coords.filter (fun c => inBounds f c.1 c.2)
  ((inb.filter (fun c => p (f.px c.1 c.2))).length, inb.length)

/-- Per-channel inclusive interval test with per-rule default bounds, mirroring
`r_range.get("min", dRmin) <= r <= r_range.get("max", dRmax)` and likewise for
`g` and `b`. -/
def pixelInRange (p : Pixel) (cr : ColorRange)
    (dRmin dRmax dGmin dGmax dBmin dBmax : Int) : Bool :=
  decide (cr.r.min?.getD dRmin ≤ p.r ∧ p.r ≤ cr.r.max?.getD dRmax ∧
          cr.g.min?.getD dGmin ≤ p.g ∧ p.g ≤ cr.g.max?.getD dGmax ∧
          cr.b.min?.getD dBmin ≤ p.b ∧ p.b ≤ cr.b.max?.getD dBmax)

/-- The offset grid `for dx in xs: for dy in ys:` around an anchor point. -/
def gridCoords (cx cy : Int) (xs ys : List Int) : List (Int × Int) :=
  xs.flatMap (fun dx => ys.map (fun dy => (cx + dx, cy + dy)))

/-- Effective geometry in `detect_weston_screen_state`: `default_geometry` with
the in-code defaults (0, 0, 1024, 600), overridden by the xwininfo-reported
geometry when one was parsed. -/
def detectGeom (cfg : WestonCfg) (xwin : Option Geom) : Geom :=
  xwin.getD
    { x := cfg.default_geometry.x?.getD 0
      y := cfg.default_geometry.y?.getD 0
      w := cfg.default_geometry.width?.getD 1024
      h := cfg.default_geometry.height?.getD 600 }

/-- Window center `(weston_x + weston_w // 2, weston_y + weston_h // 2)`. -/
def centerOf (g : Geom) : Int × Int := (g.x + g.w.fdiv 2, g.y + g.h.fdiv 2)

/-- Black-screen rule sampling (weston.py Check 1): grid around the window
center, `x_range`/`y_range` defaults `range(-10, 11, 5)`, color-range defaults
0..10 per channel.  Returns `(black_count, total_samples)`. -/
def blackStats (f : Frame) (cx cy : Int) (det : Detection) : Nat × Nat :=
  let xs := pythonRange (det.sample_area.x_range.min?.getD (-10))
    (det.sample_area.x_range.max?.getD 11) (det.sample_area.x_range.step?.getD 5)
  let ys := pythonRange (det.sample_area.y_range.min?.getD (-10))
    (det.sample_area.y_range.max?.getD 11) (det.sample_area.y_range.step?.getD 5)
  ruleStats f (gridCoords cx cy xs ys)
    (fun p => pixelInRange p det.color_range 0 10 0 10 0 10)

/-- `total_samples > 0 and black_count / total_samples > ratio` with ratio
defaulting to 0.8; the Python float division is modelled as the exact rational. -/
def blackFires (f : Frame) (cx cy : Int) (det : Detection) : Bool :=
  let s := blackStats f cx cy det
  decide (0 < s.2 ∧ det.threshold.ratioVal.getD (mkRat 4 5) < mkRat s.1 s.2)

/-- Lock-button rule sampling (weston.py Check 2): a `sample_w × sample_h` box
(defaults 3×3) around the unlock-button anchor; green color-range defaults
(130..145, 125..140, 125..135).  Returns `(green_count, lock_samples)`. -/
def lockStats (f : Frame) (ux uy : Int) (det : Detection) : Nat × Nat :=
  let sw := det.sample_area.width?.getD 3
  let sh := det.sample_area.height?.getD 3
  let xs := pythonRange (-(sw.fdiv 2)) (sw.fdiv 2 + 1) 1
  let ys := pythonRange (-(sh.fdiv 2)) (sh.fdiv 2 + 1) 1
  ruleStats f (gridCoords ux uy xs ys)
    (fun p => pixelInRange p det.color_range 130 145 125 140 125 135)

/-- `lock_samples > 0 and green_count >= min_pixels` with `min_pixels`
defaulting to 1. -/
def lockFires (f : Frame) (ux uy : Int) (det : Detection) : Bool :=
  let s := lockStats f ux uy det
  decide (0 < s.2 ∧ det.threshold.min_pixels?.getD 1 ≤ (s.1 : Int))

/-- The colorful-pixel test of the loading-vs-loaded heuristic:
`max(r,g,b) > 100 and max(r,g,b) - min(r,g,b) > 30`. -/
def isColorful (p : Pixel) : Bool :=
  decide (100 < max p.r (max p.g p.b) ∧
          30 < max p.r (max p.g p.b) - min p.r (min p.g p.b))

/-- App-icon band sampling (weston.py Check 3): `x` from `wx + 0.3*ww` to
`wx + 0.7*ww` step 20, `y = wy + 0.7*wh + dy` for `dy in range(-20, 21, 10)`.
Python's `int(w * 0.3)` truncation is modelled as floor division (equal for the
nonnegative dimensions that occur). -/
def iconStats (f : Frame) (g : Geom) : Nat × Nat :=
  let iy := g.y + (7 * g.h).fdiv 10
  let xs := pythonRange (g.x + (3 * g.w).fdiv 10) (g.x + (7 * g.w).fdiv 10) 20
  let dys := pythonRange (-20) 21 10
  ruleStats f (xs.flatMap (fun x => dys.map (fun dy => (x, iy + dy)))) isColorful

/-- `icon_samples > 0 and colorful_count / icon_samples > 0.1`. -/
def loadedFires (f : Frame) (g : Geom) : Bool :=
  let s := iconStats f g
  decide (0 < s.2 ∧ mkRat 1 10 < mkRat s.1 s.2)

/-- Black branch of the classifier; skipped when `elements.black_screen` is
missing or an empty dict (`if black_config:`). -/
def blackBranch (f : Frame) (cx cy : Int) (cfg : WestonCfg) : Bool :=
  match cfg.black_screen? with
  | some el => blackFires f cx cy el.detection
  | none => false

/-- Lock branch of the classifier; skipped when `elements.button_unlock` is
missing or empty; the anchor comes from the element's `position` dict, defaults
(129, 104). -/
def lockBranch (f : Frame) (cfg : WestonCfg) : Bool :=
  match cfg.button_unlock? with
  | some el =>
    lockFires f (el.position.x?.getD 129) (el.position.y?.getD 104) el.detection
  | none => false

/-- `WestonController.detect_weston_screen_state`.  The process and capture
queries are booleans; the frame stands for the decoded screenshot.  Branch order
as in the code: Weston not running → "unknown"; capture failure → "unknown";
Waydroid session not running → "empty"; black-screen rule → "black"; lock-button
rule → "lock"; icon heuristic → "loaded" / "loading". -/
def detect_weston_screen_state (westonRunning : Bool) (xwin : Option Geom)
    (captureOk : Bool) (f : Frame) (waydroidRunning : Bool) (cfg : WestonCfg) :
    String :=
  if !westonRunning then "unknown"
  else
    let g := detectGeom cfg xwin
    if !captureOk then "unknown"
    else
      let c := centerOf g
      if !waydroidRunning then "empty"
      else if blackBranch f c.1 c.2 cfg then "black"
      else if lockBranch f cfg then "lock"
      else if loadedFires f g then "loaded"
      else "loading"

/-- `UIConfig.get_weston_window_geometry` with its defaults (5, 29, 1024, 600). -/
def uiGeometry (cfg : WestonCfg) : Geom :=
  { x := cfg.default_geometry.x?.getD 5
    y := cfg.default_geometry.y?.getD 29
    w := cfg.default_geometry.width?.getD 1024
    h := cfg.default_geometry.height?.getD 600 }

/-- `UIConfig.get_unlock_button_position` with defaults (129, 104). -/
def uiUnlockPos (cfg : WestonCfg) : Int × Int :=
  match cfg.button_unlock? with
  | some el => (el.position.x?.getD 129, el.position.y?.getD 104)
  | none => (129, 104)

/-- `UIConfig.get_unlock_button_detection`: the element's detection dict, `{}`
when the element is absent. -/
def uiUnlockDetection (cfg : WestonCfg) : Detection :=
  (cfg.button_unlock?.getD {}).detection

/-- `UIConfig.get_black_screen_detection`. -/
def uiBlackDetection (cfg : WestonCfg) : Detection :=
  (cfg.black_screen?.getD {}).detection

/-- `GameController.is_weston_locked`: geometry from config (ui_config defaults
(5, 29, 1024, 600)) overridden by xwininfo; the black-screen rule and then the
unlock-button rule, both with the ui_config-supplied detection dicts (no
truthiness guard here, unlike the classifier).  A failed capture or any raised
exception yields `False`. -/
def is_weston_locked (exn : Bool) (xwin : Option Geom) (captureOk : Bool)
    (f : Frame) (cfg : WestonCfg) : Bool :=
  if exn then false
  else
    let g := xwin.getD (uiGeometry cfg)
    if !captureOk then false
    else
      let c := centerOf g
      let up := uiUnlockPos cfg
      if blackFires f c.1 c.2 (uiBlackDetection cfg) then true
      else if lockFires f up.1 up.2 (uiUnlockDetection cfg) then true
      else false

/-- The click dispatched by one unlock-sequence step: action "click" on target
"center" hits the window center, on "button_unlock" the unlock button; other
actions and targets dispatch nothing. -/
def stepClick (cx cy ux uy : Int) (s : UnlockStep) : Option (Int × Int) :=
  if s.action == some "click" then
    if s.target == some "center" then some (cx, cy)
    else if s.target == some "button_unlock" then some (ux, uy)
    else none
  else none

/-- All clicks dispatched by one pass over the unlock-sequence steps. -/
def attemptClicks (steps : List UnlockStep) (cx cy ux uy : Int) :
    List (Int × Int) :=
  steps.filterMap (stepClick cx cy ux uy)

/-- Result of `GameController._unlock_weston`: outcome, every click dispatched,
and the number of `is_weston_locked` classifications performed. -/
structure UnlockResult where
  success : Bool
  clicks : List (Int × Int)
  checks : Nat
deriving DecidableEq

/-- The attempt loop of `_unlock_weston`: each attempt replays the step clicks
and, when `verify_after_each`, consults the lock oracle (consuming its next
value); a not-locked verification returns success early.  Components: early
result (if any), clicks dispatched, next oracle index. -/
def unlockLoop (locked : Nat → Bool) (verify : Bool) (cs : List (Int × Int)) :
    Nat → Nat → Option Bool × List (Int × Int) × Nat
  | 0, k => (none, [], k)
  | n + 1, k =>
    if verify then
      if locked k then
        let r := unlockLoop locked verify cs n (k + 1)
        (r.1, cs ++ r.2.1, r.2.2)
      else (some true, cs, k + 1)
    else
      let r := unlockLoop locked verify cs n k
      (r.1, cs ++ r.2.1, r.2.2)

/-- `retry.get("max_attempts", 2)` (as a loop count). -/
def unlockMaxN (cfg : WestonCfg) : Nat :=
  ((cfg.unlock_sequence.retry?.getD {}).max_attempts?.getD 2).toNat

/-- `retry.get("verify_after_each", False)`. -/
def unlockVerify (cfg : WestonCfg) : Bool :=
  (cfg.unlock_sequence.retry?.getD {}).verify_after_each?.getD false

/-- The clicks one attempt replays, with the ui_config geometry and unlock
button position. -/
def unlockClicks1 (cfg : WestonCfg) : List (Int × Int) :=
  let c := centerOf (uiGeometry cfg)
  let up := uiUnlockPos cfg
  attemptClicks (cfg.unlock_sequence.steps?.getD []) c.1 c.2 up.1 up.2

/-- `GameController._unlock_weston`: `for attempt in range(max_attempts)`
replay the steps, verifying after each attempt when configured; after the loop,
one final lock check decides the result. -/
def unlock_weston (cfg : WestonCfg) (locked : Nat → Bool) : UnlockResult :=
  let r := unlockLoop locked (unlockVerify cfg) (unlockClicks1 cfg)
    (unlockMaxN cfg) 0
  match r.1 with
  | some b => ⟨b, r.2.1, r.2.2⟩
  | none => ⟨!locked r.2.2, r.2.1, r.2.2 + 1⟩

/-- The checkpoint schedule of `_perform_startup_taps`, in seconds from
`start_time`. -/
def tapIntervals : List Nat := [20, 30, 40, 50, 60, 70, 80]

/-- State after running (part of) the startup tap sequence.  Times are tenths of
a second of simulated time since `start_time` (the reference point the code uses
for its checkpoints).  `taps` records when each checkpoint tap group began,
`checks` when `is_in_main_game` was consulted, `k` how many `is_in_main_game`
oracle values were consumed. -/
structure TapsResult where
  success : Bool
  t : Nat
  taps : List Nat
  checks : List Nat
  k : Nat
deriving DecidableEq

/-- Result of the inner per-second polling wait
(`for _ in range(int(wait_time)): check; sleep(1)`). -/
structure WaitRes where
  found : Bool
  k : Nat
  t : Nat
  checks : List Nat
deriving DecidableEq

/-- The inner polling wait of `_perform_startup_taps`: up to `n` one-second
steps, each first consulting `is_in_main_game` and returning at once when it
fires. -/
def tapsWait (im : Nat → Bool) : Nat → Nat → Nat → WaitRes
  | 0, k, t => ⟨false, k, t, []⟩
  | n + 1, k, t =>
    if im k then ⟨true, k + 1, t, [t]⟩
    else
      let r := tapsWait im n (k + 1) (t + 10)
      ⟨r.found, r.k, r.t, t :: r.checks⟩

/-- The checkpoint loop of `_perform_startup_taps`.  Each iteration: consult
`is_in_main_game` (early exit), wait in one-second polling steps plus the
fractional remainder until the checkpoint, then tap (one X11 click at the window
center, sleep 0.3, then three game taps at the tap-to-start point with sleep 0.5
each: 1.8 s = 18 tenths).  After the list is exhausted, one final check decides
the result. -/
def tapsLoop (im : Nat → Bool) : List Nat → Nat → Nat → TapsResult
  | [], k, t =>
    if im k then ⟨true, t, [], [t], k + 1⟩
    else ⟨false, t, [], [t], k + 1⟩
  | tg :: rest, k, t =>
    if im k then ⟨true, t, [], [t], k + 1⟩
    else
      let waitT : Int := (tg : Int) * 10 - (t : Int)
      if 0 < waitT then
        let r := tapsWait im (waitT.toNat / 10) (k + 1) t
        if r.found then ⟨true, r.t, [], t :: r.checks, r.k⟩
        else
          let t2 := r.t + waitT.toNat % 10
          let res := tapsLoop im rest r.k (t2 + 18)
          ⟨res.success, res.t, t2 :: res.taps, t :: r.checks ++ res.checks, res.k⟩
      else
        let res := tapsLoop im rest (k + 1) (t + 18)
        ⟨res.success, res.t, t :: res.taps, t :: res.checks, res.k⟩

/-- `GameController._perform_startup_taps`, measured from `start_time` (which
the code records after its initial fixed burst of 5 X11 clicks and 3 game taps;
the burst precedes the checkpoint schedule and consults no check). -/
def perform_startup_taps (im : Nat → Bool) : TapsResult :=
  tapsLoop im tapIntervals 0 0

/-- The Rise of Kingdoms package name. -/
def PACKAGE_NAME : String := "com.lilithgames.rok.gpkr"

/-- Python substring containment `needle in hay`. -/
def strContains (hay needle : String) : Bool :=
  hay.data.tails.any (fun t => needle.data.isPrefixOf t)

/-- The foreground-activity gate `activity and self.PACKAGE_NAME in activity`:
the activity string must be truthy (non-empty) and contain the package name. -/
def activityOk (activity : Option String) : Bool :=
  match activity with
  | some s => (s != "") && strContains s PACKAGE_NAME
  | none => false

/-- Menu-marker sampling of `is_in_main_game`: offsets (default [-2, 0, 2]) in
both axes around the menu-button position (defaults (990, 530)); blue
color-range defaults (0..50, 60..140, 110..170).
Returns `(blue_count, total_samples)`. -/
def menuStats (f : Frame) (cfg : RokCfg) : Nat × Nat :=
  let mx := cfg.menu_main.position.x?.getD 990
  let my := cfg.menu_main.position.y?.getD 530
  let offs := cfg.menu_main.detection.sample_area.offsets?.getD [-2, 0, 2]
  ruleStats f (gridCoords mx my offs offs)
    (fun p => pixelInRange p cfg.menu_main.detection.color_range 0 50 60 140 110 170)

/-- The menu-marker color probe: a decoded screenshot must be present and
`total_samples > 0 and blue_count >= min_pixels` (default 1). -/
def menuProbe (screenshot : Option Frame) (cfg : RokCfg) : Bool :=
  match screenshot with
  | some f =>
    let s := menuStats f cfg
    decide (0 < s.2 ∧ cfg.menu_main.detection.threshold.min_pixels?.getD 1 ≤ (s.1 : Int))
  | none => false

/-- Result of `GameController.is_in_main_game` together with the log message of
the last gate evaluated. -/
structure MainGameResult where
  result : Bool
  reason : String
deriving DecidableEq

/-- `GameController.is_in_main_game`: (1) the game process must be running,
(2) the current activity must contain the package name, (3) the screenshot must
decode and the menu-marker probe must fire.  Evaluation stops at the first
failing gate; any exception yields `False`. -/
def is_in_main_game (exn gameRunning : Bool) (activity : Option String)
    (screenshot : Option Frame) (cfg : RokCfg) : MainGameResult :=
  if exn then ⟨false, "Error checking if in main game"⟩
  else if !gameRunning then ⟨false, "Game not running"⟩
  else if !activityOk activity then ⟨false, "Game not focused"⟩
  else if menuProbe screenshot cfg then ⟨true, "In main game"⟩
  else ⟨false, "Not in main game"⟩

/-- `GameController.wait_for_game_ready`: poll every 2 s within the 30 s budget
(15 polls); ready when the game process runs and the current activity contains
the package name.  Returns the outcome plus the next indices of the two
oracles. -/
def wait_for_game_ready (running : Nat → Bool) (activity : Nat → Option String) :
    Nat → Nat → Nat → Bool × Nat × Nat
  | 0, rI, aI => (false, rI, aI)
  | n + 1, rI, aI =>
    if !running rI then wait_for_game_ready running activity n (rI + 1) aI
    else if activityOk (activity aI) then (true, rI + 1, aI + 1)
    else wait_for_game_ready running activity n (rI + 1) (aI + 1)

/-- The final verification loop at the end of `start_game`: up to 10
`is_in_main_game` polls, then "Return True anyway as game process is running" —
so it returns `True` regardless of the gate. -/
def finalVerify (im : Nat → Bool) : Nat → Nat → Bool
  | _, 0 => true
  | k, n + 1 => if im k then true else finalVerify im (k + 1) n

/-- Environment oracles consumed by `start_game`; each kind of external query
has its own stream of successive results. -/
structure StartEnv where
  waydroidRunning : Bool
  startWaydroidOk : Bool
  locked : Nat → Bool
  running : Nat → Bool
  activity : Nat → Option String
  startAppOk : Bool
  inMain : Nat → Bool

/-- `GameController.start_game` over the oracle environment, mirroring the
code's branch structure: ensure Waydroid; unlock when the lock check fires; when
the game is already running and not force-restarted, return `True` after
optional startup taps (whose result is discarded); otherwise relaunch, wait for
readiness, run the tap bypass, and — even when the `is_in_main_game` gate never
fires — return `True` after the final verification loop. -/
def start_game (env : StartEnv) (cfg : WestonCfg)
    (wait_for_ready auto_tap force_restart : Bool) : Bool :=
  if !(if env.waydroidRunning then true else env.startWaydroidOk) then false
  else
    let _unlockTrace :=
      if env.locked 0 then some (unlock_weston cfg (fun k => env.locked (1 + k)))
      else none
    if env.running 0 && !force_restart then
      match env.activity 0 with
      | some act =>
        if (act != "") && strContains act PACKAGE_NAME then
          let _taps := if auto_tap then some (tapsLoop env.inMain tapIntervals 0 0) else none
          true
        else
          let _taps := if auto_tap then some (tapsLoop env.inMain tapIntervals 0 0) else none
          true
      | none =>
        let _taps := if auto_tap then some (tapsLoop env.inMain tapIntervals 0 0) else none
        true
    else
      if !env.startAppOk then false
      else if !wait_for_ready then true
      else
        let wr := wait_for_game_ready env.running env.activity 15 1 0
        if !wr.1 then false
        else if env.inMain 0 then true
        else if auto_tap then
          let tr := tapsLoop env.inMain tapIntervals 1 0
          if tr.success then true
          else finalVerify env.inMain tr.k 10
        else finalVerify env.inMain 1 10

/-- The in-memory `UIConfig._configs` dict: which of the three JSON documents
are currently present (keyed "weston", "rok_button", "rok_unit"). -/
structure Configs (α : Type) where
  weston : Option α
  rok_button : Option α
  rok_unit : Option α
deriving DecidableEq

/-- What `UIConfig._load_all_configs` installs per file (a missing or malformed
file still installs an empty document, so every key is always set). -/
structure LoadResults (α : Type) where
  weston : α
  rok_button : α
  rok_unit : α

/-- The fully loaded configuration after `_load_all_configs` completes. -/
def loadAll {α : Type} (fs : LoadResults α) : Configs α :=
  ⟨some fs.weston, some fs.rok_button, some fs.rok_unit⟩

/-- The successive in-memory states during `UIConfig.reload`: the old value; the
cleared dict (`self._configs = {}`); then one state per file loaded, in the
order of `_load_all_configs`.  A reader interleaved with `reload` observes one
of these states. -/
def reloadStates {α : Type} (old : Configs α) (fs : LoadResults α) :
    List (Configs α) :=
  [old,
   ⟨none, none, none⟩,
   ⟨some fs.weston, none, none⟩,
   ⟨some fs.weston, some fs.rok_button, none⟩,
   ⟨some fs.weston, some fs.rok_button, some fs.rok_unit⟩]

/-- An all-black frame at the default 1024×600 screen size. -/
def blackFrame : Frame := ⟨1024, 600, fun _ _ => ⟨0, 0, 0⟩⟩

/-- A frame that is black except one column crossing the default black-screen
sample grid, making exactly 20 of its 25 samples match (ratio exactly 0.8). -/
def c3Frame : Frame :=
  ⟨1024, 600, fun x _ => if x = 522 then ⟨255, 255, 255⟩ else ⟨0, 0, 0⟩⟩

/-- Weston config whose only element is a default black-screen rule. -/
def c3Cfg : WestonCfg := { black_screen? := some {} }

/-- A frame uniformly inside the default unlock-button green range. -/
def greenFrame : Frame := ⟨1024, 600, fun _ _ => ⟨135, 130, 130⟩⟩

/-- Weston config whose only element is a default unlock-button rule. -/
def c5Cfg : WestonCfg := { button_unlock? := some {} }

/-- A degenerate 0×0 frame: every sample coordinate is out of bounds. -/
def emptyFrame : Frame := ⟨0, 0, fun _ _ => ⟨0, 0, 0⟩⟩

/-- Weston config with default black-screen and unlock-button rules present. -/
def c8Cfg : WestonCfg := { black_screen? := some {}, button_unlock? := some {} }

/-- Unlock configuration: one center click per attempt, two attempts,
verification after each attempt. -/
def c4Cfg : WestonCfg :=
  { unlock_sequence :=
      { steps? := some [{ action := some "click", target := some "center", wait_after := 1 }],
        retry? := some { max_attempts? := some 2, verify_after_each? := some true } } }

/-- Unlock configuration: no steps, two attempts, verification after each. -/
def c6Cfg : WestonCfg :=
  { unlock_sequence :=
      { retry? := some { max_attempts? := some 2, verify_after_each? := some true } } }

/-- Environment in which the game is already running and focused but the
`is_in_main_game` gate never fires (its oracle is constantly false). -/
def c1Env : StartEnv :=
  { waydroidRunning := true
    startWaydroidOk := false
    locked := fun _ => false
    running := fun _ => true
    activity := fun _ => some PACKAGE_NAME
    startAppOk := true
    inMain := fun _ => false }

/-- Worst-case clock of the checkpoint loop: each iteration advances the clock
to at least the checkpoint time (when it had to wait) and then spends 18 tenths
tapping; an upper bound for `tapsLoop`'s final simulated time. -/
def tapsSched : List Nat → Nat → Nat
  | [], t => t
  | tg :: rest, t => tapsSched rest (max t (tg * 10) + 18)

theorem ruleStats_fst_le (f : Frame) (coords : List (Int × Int)) (p : Pixel → Bool) :
    (ruleStats f coords p).1 ≤ (ruleStats f coords p).2 :=
  List.length_filter_le _ _

theorem blackStats_fst_le (f : Frame) (cx cy : Int) (det : Detection) :
    (blackStats f cx cy det).1 ≤ (blackStats f cx cy det).2 := by
  unfold blackStats
  exact ruleStats_fst_le _ _ _

theorem lockStats_fst_le (f : Frame) (ux uy : Int) (det : Detection) :
    (lockStats f ux uy det).1 ≤ (lockStats f ux uy det).2 := by
  unfold lockStats
  exact ruleStats_fst_le _ _ _

theorem fourFifths_lt_mkRat {c t : Nat} (ht : 0 < t) :
    (mkRat 4 5 < mkRat (c : Int) t) ↔ 4 * t < 5 * c := by
  rw [Rat.mkRat_eq_div, Rat.mkRat_eq_div,
    div_lt_div_iff₀ (by norm_num) (by exact_mod_cast ht)]
  constructor
  · intro h
    have h' : (4 * t : ℚ) < 5 * c := by push_cast at h ⊢; linarith
    exact_mod_cast h'
  · intro h
    have h' : (4 * t : ℚ) < 5 * c := by exact_mod_cast h
    push_cast at h' ⊢
    linarith

theorem blackFires_total_pos {f : Frame} {cx cy : Int} {det : Detection}
    (h : blackFires f cx cy det = true) : 0 < (blackStats f cx cy det).2 := by
  simp only [blackFires, decide_eq_true_eq] at h
  exact h.1

theorem lockFires_total_pos {f : Frame} {ux uy : Int} {det : Detection}
    (h : lockFires f ux uy det = true) : 0 < (lockStats f ux uy det).2 := by
  simp only [lockFires, decide_eq_true_eq] at h
  exact h.1

theorem loadedFires_total_pos {f : Frame} {g : Geom}
    (h : loadedFires f g = true) : 0 < (iconStats f g).2 := by
  simp only [loadedFires, decide_eq_true_eq] at h
  exact h.1

theorem detect_eq_black {ww : Bool} {xwin : Option Geom} {co : Bool} {f : Frame}
    {wd : Bool} {cfg : WestonCfg}
    (h : detect_weston_screen_state ww xwin co f wd cfg = "black") :
    blackBranch f (centerOf (detectGeom cfg xwin)).1
      (centerOf (detectGeom cfg xwin)).2 cfg = true := by
  simp only [detect_weston_screen_state] at h
  split_ifs at h with h1 h2 h3 h4 h5 h6
  · exact absurd h (by decide)
  · exact absurd h (by decide)
  · exact absurd h (by decide)
  · exact h4
  · exact absurd h (by decide)
  · exact absurd h (by decide)
  · exact absurd h (by decide)

theorem detect_eq_lock {ww : Bool} {xwin : Option Geom} {co : Bool} {f : Frame}
    {wd : Bool} {cfg : WestonCfg}
    (h : detect_weston_screen_state ww xwin co f wd cfg = "lock") :
    lockBranch f cfg = true := by
  simp only [detect_weston_screen_state] at h
  split_ifs at h with h1 h2 h3 h4 h5 h6
  · exact absurd h (by decide)
  · exact absurd h (by decide)
  · exact absurd h (by decide)
  · exact absurd h (by decide)
  · exact h5
  · exact absurd h (by decide)
  · exact absurd h (by decide)

theorem detect_eq_loaded {ww : Bool} {xwin : Option Geom} {co : Bool} {f : Frame}
    {wd : Bool} {cfg : WestonCfg}
    (h : detect_weston_screen_state ww xwin co f wd cfg = "loaded") :
    loadedFires f (detectGeom cfg xwin) = true := by
  simp only [detect_weston_screen_state] at h
  split_ifs at h with h1 h2 h3 h4 h5 h6
  · exact absurd h (by decide)
  · exact absurd h (by decide)
  · exact absurd h (by decide)
  · exact absurd h (by decide)
  · exact absurd h (by decide)
  · exact h6
  · exact absurd h (by decide)

/-- C2: for every frame and config, when the Waydroid container session is not
running (and the classifier got as far as interpreting a captured frame, i.e.
the compositor is up and the capture succeeded), `detect_weston_screen_state`
returns "empty" regardless of the frame's pixel content. -/
theorem c2_session_not_running_empty (xwin : Option Geom) (f : Frame)
    (cfg : WestonCfg) :
    detect_weston_screen_state true xwin true f false cfg = "empty" := rfl

/-- C3 counterexample: with the default black-screen configuration (`c3Cfg`,
sample center (512, 300)), `c3Frame` has exactly 20 of the 25 in-bounds samples
inside (0,0,0)-(10,10,10) — that is, exactly 80 %, so "at least 80 %" holds —
yet the classifier returns "loading", not "black", because the code requires the
ratio to be strictly greater than the 0.8 threshold. -/
theorem c3_counterexample :
    (blackStats c3Frame 512 300 ({} : Detection)).1 = 20 ∧
    (blackStats c3Frame 512 300 ({} : Detection)).2 = 25 ∧
    4 * (blackStats c3Frame 512 300 ({} : Detection)).2 ≤
      5 * (blackStats c3Frame 512 300 ({} : Detection)).1 ∧
    detect_weston_screen_state true none true c3Frame true c3Cfg = "loading" := by
  decide

/-- C3 (amended): for every frame and config whose black-screen rule is present
with the default threshold ratio (absent, hence 0.8) and the default color range
(0,0,0)-(10,10,10), if STRICTLY MORE than 80 % of the in-bounds samples in the
black-screen sample region match (5·matched > 4·total), the classifier returns
"black". -/
theorem c3_black_amended (xwin : Option Geom) (f : Frame) (cfg : WestonCfg)
    (el : Element) (h1 : cfg.black_screen? = some el)
    (h2 : el.detection.threshold.ratioVal = none)
    (_h3 : el.detection.color_range = {})
    (h4 : 4 * (blackStats f (centerOf (detectGeom cfg xwin)).1
            (centerOf (detectGeom cfg xwin)).2 el.detection).2 <
          5 * (blackStats f (centerOf (detectGeom cfg xwin)).1
            (centerOf (detectGeom cfg xwin)).2 el.detection).1) :
    detect_weston_screen_state true xwin true f true cfg = "black" := by
  have hle := blackStats_fst_le f (centerOf (detectGeom cfg xwin)).1
    (centerOf (detectGeom cfg xwin)).2 el.detection
  have htot : 0 < (blackStats f (centerOf (detectGeom cfg xwin)).1
      (centerOf (detectGeom cfg xwin)).2 el.detection).2 := by omega
  have hfires : blackFires f (centerOf (detectGeom cfg xwin)).1
      (centerOf (detectGeom cfg xwin)).2 el.detection = true := by
    simp only [blackFires, h2, Option.getD_none, decide_eq_true_eq]
    exact ⟨htot, (fourFifths_lt_mkRat htot).2 (by omega)⟩
  simp [detect_weston_screen_state, blackBranch, h1, hfires]

/-- C3 witness: the all-black frame makes 25 of 25 samples match (100 % > 80 %),
and the classifier indeed returns "black". -/
theorem c3_witness :
    (4 * (blackStats blackFrame (centerOf (detectGeom c3Cfg none)).1
        (centerOf (detectGeom c3Cfg none)).2 ({} : Element).detection).2 <
      5 * (blackStats blackFrame (centerOf (detectGeom c3Cfg none)).1
        (centerOf (detectGeom c3Cfg none)).2 ({} : Element).detection).1) ∧
    detect_weston_screen_state true none true blackFrame true c3Cfg = "black" :=
  ⟨by decide, c3_black_amended none blackFrame c3Cfg {} rfl rfl rfl (by decide)⟩

/-- C5: for every frame and config whose unlock-button element is present, if
the lock-button sample region contains at least `min_pixels` (with
`min_pixels ≥ 1`, which covers its default of 1) in-bounds pixels inside the
configured green range and the black-screen rule does not fire, the classifier
returns "lock". -/
theorem c5_lock (xwin : Option Geom) (f : Frame) (cfg : WestonCfg) (el : Element)
    (h1 : cfg.button_unlock? = some el)
    (hmp : 1 ≤ el.detection.threshold.min_pixels?.getD 1)
    (hcnt : el.detection.threshold.min_pixels?.getD 1 ≤
      ((lockStats f (el.position.x?.getD 129) (el.position.y?.getD 104)
        el.detection).1 : Int))
    (hblack : blackBranch f (centerOf (detectGeom cfg xwin)).1
      (centerOf (detectGeom cfg xwin)).2 cfg = false) :
    detect_weston_screen_state true xwin true f true cfg = "lock" := by
  have hpos : 0 < (lockStats f (el.position.x?.getD 129) (el.position.y?.getD 104)
      el.detection).2 := by
    have hle := lockStats_fst_le f (el.position.x?.getD 129)
      (el.position.y?.getD 104) el.detection
    omega
  have hfires : lockFires f (el.position.x?.getD 129) (el.position.y?.getD 104)
      el.detection = true := by
    simp only [lockFires, decide_eq_true_eq]
    exact ⟨hpos, hcnt⟩
  simp [detect_weston_screen_state, lockBranch, h1, hblack, hfires]

/-- C5 witness: a frame uniformly inside the default green range, with the
default unlock-button element and no black-screen element, classifies as
"lock". -/
theorem c5_witness :
    (1 ≤ ({} : Element).detection.threshold.min_pixels?.getD 1) ∧
    (({} : Element).detection.threshold.min_pixels?.getD 1 ≤
      ((lockStats greenFrame 129 104 ({} : Element).detection).1 : Int)) ∧
    detect_weston_screen_state true none true greenFrame true c5Cfg = "lock" :=
  ⟨by decide, by decide,
    c5_lock none greenFrame c5Cfg {} rfl (by decide) (by decide) (by decide)⟩

/-- C8: a detection rule whose sample region has zero in-bounds samples
(total == 0) is never treated as a match — the black-screen rule then cannot
yield "black", the lock-button rule cannot yield "lock", and the colorful-pixel
heuristic cannot yield "loaded". -/
theorem c8_zero_samples (ww : Bool) (xwin : Option Geom) (co : Bool) (f : Frame)
    (wd : Bool) (cfg : WestonCfg) :
    ((∀ el, cfg.black_screen? = some el →
        (blackStats f (centerOf (detectGeom cfg xwin)).1
          (centerOf (detectGeom cfg xwin)).2 el.detection).2 = 0) →
      detect_weston_screen_state ww xwin co f wd cfg ≠ "black") ∧
    ((∀ el, cfg.button_unlock? = some el →
        (lockStats f (el.position.x?.getD 129) (el.position.y?.getD 104)
          el.detection).2 = 0) →
      detect_weston_screen_state ww xwin co f wd cfg ≠ "lock") ∧
    ((iconStats f (detectGeom cfg xwin)).2 = 0 →
      detect_weston_screen_state ww xwin co f wd cfg ≠ "loaded") := by
  refine ⟨?_, ?_, ?_⟩
  · intro h0 hb
    have hbb := detect_eq_black hb
    unfold blackBranch at hbb
    cases hcs : cfg.black_screen? with
    | none => rw [hcs] at hbb; simp at hbb
    | some el =>
      rw [hcs] at hbb
      have hpos := blackFires_total_pos hbb
      rw [h0 el hcs] at hpos
      exact Nat.lt_irrefl 0 hpos
  · intro h0 hb
    have hbb := detect_eq_lock hb
    unfold lockBranch at hbb
    cases hcs : cfg.button_unlock? with
    | none => rw [hcs] at hbb; simp at hbb
    | some el =>
      rw [hcs] at hbb
      have hpos := lockFires_total_pos hbb
      rw [h0 el hcs] at hpos
      exact Nat.lt_irrefl 0 hpos
  · intro h0 hb
    have hpos := loadedFires_total_pos (detect_eq_loaded hb)
    rw [h0] at hpos
    exact Nat.lt_irrefl 0 hpos

/-- C8 witness: on the degenerate 0×0 frame every sample is out of bounds, so
with both rules configured the classifier reports none of "black", "lock",
"loaded". -/
theorem c8_witness :
    detect_weston_screen_state true none true emptyFrame true c8Cfg ≠ "black" ∧
    detect_weston_screen_state true none true emptyFrame true c8Cfg ≠ "lock" ∧
    detect_weston_screen_state true none true emptyFrame true c8Cfg ≠ "loaded" :=
  ⟨(c8_zero_samples true none true emptyFrame true c8Cfg).1
      (by intro el h; cases h; decide),
   (c8_zero_samples true none true emptyFrame true c8Cfg).2.1
      (by intro el h; cases h; decide),
   (c8_zero_samples true none true emptyFrame true c8Cfg).2.2 (by decide)⟩

/-- C10: GameController.is_weston_locked reports "unlocked" (False) instead of
raising when the screenshot capture fails (non-zero status) or when any
exception is raised during detection — for every frame, geometry and config. -/
theorem c10_lock_check_error_false (exn : Bool) (xwin : Option Geom)
    (captureOk : Bool) (f : Frame) (cfg : WestonCfg) :
    is_weston_locked exn xwin false f cfg = false ∧
    is_weston_locked true xwin captureOk f cfg = false := by
  constructor
  · cases exn <;> rfl
  · rfl

theorem unlockLoop_no_verify (locked : Nat → Bool) (cs : List (Int × Int)) :
    ∀ n k, unlockLoop locked false cs n k =
      (none, (List.replicate n cs).flatten, k) := by
  intro n
  induction n with
  | zero => intro k; simp [unlockLoop]
  | succ n ih => intro k; simp [unlockLoop, ih, List.replicate_succ]

theorem unlockLoop_all_locked (locked : Nat → Bool) (cs : List (Int × Int)) :
    ∀ n k, (∀ i, i < n → locked (k + i) = true) →
      unlockLoop locked true cs n k =
        (none, (List.replicate n cs).flatten, k + n) := by
  intro n
  induction n with
  | zero => intro k _; simp [unlockLoop]
  | succ n ih =>
    intro k h
    have h0 : locked k = true := by simpa using h 0 (Nat.succ_pos n)
    have hrest : ∀ i, i < n → locked (k + 1 + i) = true := by
      intro i hi
      have hx := h (i + 1) (by omega)
      rw [show k + (i + 1) = k + 1 + i by omega] at hx
      exact hx
    simp [unlockLoop, h0, ih (k + 1) hrest, List.replicate_succ]
    omega

/-- C6: when `_unlock_weston` exhausts its attempts without an early verified
success (every per-attempt verification — if verification is on — still reports
locked), it performs exactly one further, final classification, and succeeds iff
that final classification reports not-locked. -/
theorem c6_exhausted_final_check (cfg : WestonCfg) (locked : Nat → Bool)
    (h : unlockVerify cfg = true → ∀ i, i < unlockMaxN cfg → locked i = true) :
    (unlock_weston cfg locked).checks =
      (if unlockVerify cfg then unlockMaxN cfg else 0) + 1 ∧
    ((unlock_weston cfg locked).success = true ↔
      locked (if unlockVerify cfg then unlockMaxN cfg else 0) = false) := by
  cases hv : unlockVerify cfg with
  | false =>
    have hl := unlockLoop_no_verify locked (unlockClicks1 cfg) (unlockMaxN cfg) 0
    simp [unlock_weston, hv, hl, Bool.not_eq_true']
  | true =>
    have hl := unlockLoop_all_locked locked (unlockClicks1 cfg) (unlockMaxN cfg)
      0 (by intro i hi; simpa using h hv i hi)
    simp [unlock_weston, hv, hl, Bool.not_eq_true']

/-- C6 witness: with two verified attempts against an always-locked oracle, the
unlock sequencer consumes 2 + 1 classifications and fails at the final one. -/
theorem c6_witness :
    (unlockVerify c6Cfg = true → ∀ i, i < unlockMaxN c6Cfg →
      (fun _ => true : Nat → Bool) i = true) ∧
    (unlock_weston c6Cfg (fun _ => true)).checks =
      (if unlockVerify c6Cfg then unlockMaxN c6Cfg else 0) + 1 ∧
    ((unlock_weston c6Cfg (fun _ => true)).success = true ↔
      (fun _ => true : Nat → Bool)
        (if unlockVerify c6Cfg then unlockMaxN c6Cfg else 0) = false) :=
  ⟨fun _ _ _ => rfl,
   (c6_exhausted_final_check c6Cfg (fun _ => true) (fun _ _ _ => rfl)).1,
   (c6_exhausted_final_check c6Cfg (fun _ => true) (fun _ _ _ => rfl)).2⟩

/-- C4 counterexample: with one configured center-click step, two verified
attempts, and a lock oracle that reports non-locked from the start,
`_unlock_weston` returns success but HAS dispatched a click (at the window
center (517, 329)) — the claim's "no click is dispatched" is false. -/
theorem c4_counterexample :
    (unlock_weston c4Cfg (fun _ => false)).success = true ∧
    (unlock_weston c4Cfg (fun _ => false)).clicks = [(517, 329)] := by
  decide

/-- C4 (amended): when the classifier reports non-locked throughout,
`_unlock_weston` returns success — but it still replays the configured steps of
(at least) the first attempt before the first verification, so the dispatched
clicks start with one full attempt's clicks whenever max_attempts ≥ 1; the
guard that skips unlocking entirely lives in the caller (`start_game` invokes
`_unlock_weston` only when `is_weston_locked` fired). -/
theorem c4_never_locked_amended (cfg : WestonCfg) (locked : Nat → Bool)
    (h : ∀ k, locked k = false) :
    (unlock_weston cfg locked).success = true ∧
    (1 ≤ unlockMaxN cfg →
      ∃ rest, (unlock_weston cfg locked).clicks = unlockClicks1 cfg ++ rest) := by
  cases hv : unlockVerify cfg with
  | false =>
    have hl := unlockLoop_no_verify locked (unlockClicks1 cfg) (unlockMaxN cfg) 0
    constructor
    · simp [unlock_weston, hv, hl, h 0]
    · intro hn
      obtain ⟨m, hm⟩ : ∃ m, unlockMaxN cfg = m + 1 :=
        ⟨unlockMaxN cfg - 1, by omega⟩
      rw [hm] at hl
      refine ⟨(List.replicate m (unlockClicks1 cfg)).flatten, ?_⟩
      simp [unlock_weston, hv, hm, hl, List.replicate_succ]
  | true =>
    cases hn : unlockMaxN cfg with
    | zero =>
      constructor
      · simp [unlock_weston, hv, hn, unlockLoop, h 0]
      · intro h1; omega
    | succ m =>
      constructor
      · simp [unlock_weston, hv, hn, unlockLoop, h 0]
      · intro _
        refine ⟨[], ?_⟩
        simp [unlock_weston, hv, hn, unlockLoop, h 0]

/-- C4 witness: the amended statement at the concrete one-step configuration and
the constantly-unlocked oracle. -/
theorem c4_witness :
    (∀ k, (fun _ => false : Nat → Bool) k = false) ∧
    (unlock_weston c4Cfg (fun _ => false)).success = true :=
  ⟨fun _ => rfl, (c4_never_locked_amended c4Cfg (fun _ => false) (fun _ => rfl)).1⟩

theorem tapsSched_ge : ∀ (l : List Nat) (t : Nat), t ≤ tapsSched l t := by
  intro l
  induction l with
  | nil => intro t; exact Nat.le_refl t
  | cons tg rest ih =>
    intro t
    calc t ≤ max t (tg * 10) + 18 := by omega
    _ ≤ tapsSched rest (max t (tg * 10) + 18) := ih _

theorem tapsSched_mono : ∀ (l : List Nat) {t t' : Nat}, t ≤ t' →
    tapsSched l t ≤ tapsSched l t' := by
  intro l
  induction l with
  | nil => intro t t' h; exact h
  | cons tg rest ih => intro t t' h; exact ih (by omega)

theorem tapsWait_t_le (im : Nat → Bool) : ∀ (n k t : Nat),
    (tapsWait im n k t).t ≤ t + 10 * n := by
  intro n
  induction n with
  | zero => intro k t; simp [tapsWait]
  | succ n ih =>
    intro k t
    by_cases h : im k
    · simp [tapsWait, h]
    · simp only [tapsWait, h, Bool.false_eq_true, if_false]
      have := ih (k + 1) (t + 10)
      omega

theorem tapsWait_t_not_found (im : Nat → Bool) : ∀ (n k t : Nat),
    (tapsWait im n k t).found = false → (tapsWait im n k t).t = t + 10 * n := by
  intro n
  induction n with
  | zero => intro k t _; simp [tapsWait]
  | succ n ih =>
    intro k t h
    by_cases hk : im k
    · simp [tapsWait, hk] at h
    · simp only [tapsWait, hk, Bool.false_eq_true, if_false] at h ⊢
      rw [ih (k + 1) (t + 10) h]
      omega

theorem tapsLoop_t_le (im : Nat → Bool) : ∀ (l : List Nat) (k t : Nat),
    (tapsLoop im l k t).t ≤ tapsSched l t := by
  intro l
  induction l with
  | nil =>
    intro k t
    by_cases h : im k <;> simp [tapsLoop, h, tapsSched]
  | cons tg rest ih =>
    intro k t
    simp only [tapsSched]
    by_cases h : im k
    · simp only [tapsLoop, h, if_true]
      exact le_trans (by omega) (tapsSched_ge rest (max t (tg * 10) + 18))
    · by_cases hw : (0 : Int) < (tg : Int) * 10 - (t : Int)
      · by_cases hf :
          (tapsWait im (((tg : Int) * 10 - (t : Int)).toNat / 10) (k + 1) t).found
        · have h1 : (tapsLoop im (tg :: rest) k t).t =
              (tapsWait im (((tg : Int) * 10 - (t : Int)).toNat / 10) (k + 1) t).t := by
            simp only [tapsLoop]
            rw [if_neg (show ¬ im k = true from by simpa using h), if_pos hw,
              if_pos hf]
          rw [h1]
          have h2 := tapsWait_t_le im (((tg : Int) * 10 - (t : Int)).toNat / 10) (k + 1) t
          have h3 : t + 10 * (((tg : Int) * 10 - (t : Int)).toNat / 10) ≤ tg * 10 := by
            omega
          exact le_trans (le_trans h2 h3)
            (le_trans (by omega) (tapsSched_ge rest (max t (tg * 10) + 18)))
        · have hteq := tapsWait_t_not_found im
            (((tg : Int) * 10 - (t : Int)).toNat / 10) (k + 1) t (by simpa using hf)
          have h1 : (tapsLoop im (tg :: rest) k t).t =
              (tapsLoop im rest
                (tapsWait im (((tg : Int) * 10 - (t : Int)).toNat / 10) (k + 1) t).k
                (((tapsWait im (((tg : Int) * 10 - (t : Int)).toNat / 10) (k + 1) t).t +
                  ((tg : Int) * 10 - (t : Int)).toNat % 10) + 18)).t := by
            simp only [tapsLoop]
            rw [if_neg (show ¬ im k = true from by simpa using h), if_pos hw,
              if_neg hf]
          rw [h1]
          have h2 : (tapsWait im (((tg : Int) * 10 - (t : Int)).toNat / 10) (k + 1) t).t +
              ((tg : Int) * 10 - (t : Int)).toNat % 10 = tg * 10 := by
            rw [hteq]
            omega
          rw [h2]
          exact le_trans (ih _ _) (tapsSched_mono rest (by omega))
      · have h1 : (tapsLoop im (tg :: rest) k t).t =
            (tapsLoop im rest (k + 1) (t + 18)).t := by
          simp only [tapsLoop]
          rw [if_neg (show ¬ im k = true from by simpa using h), if_neg hw]
        rw [h1]
        exact le_trans (ih _ _) (tapsSched_mono rest (by omega))

/-- C7: the startup tap-bypass schedule.  First conjunct: for EVERY oracle of
is_in_main_game outcomes the loop's simulated clock never exceeds 818 tenths
(81.8 s — the 80 s checkpoint schedule plus the final 1.8 s tap group), so it
terminates within the declared schedule.  Remaining conjuncts: when the
main-game check never returns true, checkpoint tap groups begin exactly at
20/30/40/50/60/70/80 s from sequence start, the check is consulted on entering
each checkpoint iteration and during every second of each inter-checkpoint wait
(the explicit check times below), and the loop ends at 81.8 s without success. -/
theorem c7_taps_schedule :
    (∀ im : Nat → Bool, (perform_startup_taps im).t ≤ 818) ∧
    (perform_startup_taps (fun _ => false)).success = false ∧
    (perform_startup_taps (fun _ => false)).t = 818 ∧
    (perform_startup_taps (fun _ => false)).taps =
      [200, 300, 400, 500, 600, 700, 800] ∧
    (perform_startup_taps (fun _ => false)).checks =
      [0] ++ (List.range 20).map (fun i => 10 * i) ++
      ([30, 40, 50, 60, 70, 80].flatMap
        (fun tg => (tg * 10 - 82) ::
          (List.range 8).map (fun i => tg * 10 - 82 + 10 * i))) ++
      [818] := by
  refine ⟨?_, by decide, by decide, by decide, by decide⟩
  intro im
  calc (perform_startup_taps im).t = (tapsLoop im tapIntervals 0 0).t := rfl
  _ ≤ tapsSched tapIntervals 0 := tapsLoop_t_le im tapIntervals 0 0
  _ = 818 := by decide

/-- C1 counterexample: in `c1Env` the `is_in_main_game` oracle is constantly
false — the three-part confirmation gate never holds — yet the overall readiness
procedure `start_game` returns success (True), not a failure: the claim's
"returns Success only if all three hold" is false of the procedure. -/
theorem c1_counterexample :
    c1Env.inMain = (fun _ => false) ∧
    start_game c1Env {} true true false = true :=
  ⟨rfl, by decide⟩

/-- C1 (amended): the final confirmation gate `is_in_main_game` succeeds iff
all three conditions hold — game process running, foreground activity containing
the package name, and the menu-marker probe (on a decoded screenshot) meeting
its threshold — and on failure its reason names the gate that failed last
(evaluation stops at the first failing gate).  The overall start procedure,
however, can still return success when the gate never fires (last conjunct):
confirmation failure only downgrades to a warning. -/
theorem c1_main_gate_amended (gr : Bool) (act : Option String)
    (ss : Option Frame) (cfg : RokCfg) :
    ((is_in_main_game false gr act ss cfg).result = true ↔
      (gr = true ∧ activityOk act = true ∧ menuProbe ss cfg = true)) ∧
    (gr = false →
      (is_in_main_game false gr act ss cfg).reason = "Game not running") ∧
    (gr = true → activityOk act = false →
      (is_in_main_game false gr act ss cfg).reason = "Game not focused") ∧
    (gr = true → activityOk act = true → menuProbe ss cfg = false →
      (is_in_main_game false gr act ss cfg).reason = "Not in main game") ∧
    start_game c1Env {} true true false = true := by
  refine ⟨?_, ?_, ?_, ?_, by decide⟩
  · cases gr <;> cases hA : activityOk act <;> cases hM : menuProbe ss cfg <;>
      simp [is_in_main_game, hA, hM]
  · intro h; subst h; simp [is_in_main_game]
  · intro h hA; subst h; simp [is_in_main_game, hA]
  · intro h hA hM; subst h; simp [is_in_main_game, hA, hM]

/-- C1 witness: the amended gate statement at a concrete input (process not
running). -/
theorem c1_witness :
    (is_in_main_game false false none none {}).reason = "Game not running" :=
  (c1_main_gate_amended false none none {}).2.1 rfl

/-- C9 counterexample: during `UIConfig.reload` the cleared state (no document
present) is one of the observable in-memory states, and it equals neither the
old configuration nor the fully reloaded one — a concurrent reader CAN observe
a partially updated configuration. -/
theorem c9_counterexample :
    (⟨none, none, none⟩ : Configs Nat) ∈
      reloadStates (⟨some 1, some 2, some 3⟩ : Configs Nat) ⟨4, 5, 6⟩ ∧
    (⟨none, none, none⟩ : Configs Nat) ≠ (⟨some 1, some 2, some 3⟩ : Configs Nat) ∧
    (⟨none, none, none⟩ : Configs Nat) ≠ loadAll (⟨4, 5, 6⟩ : LoadResults Nat) := by
  decide

/-- C9 (amended): `UIConfig.reload` does fully replace the configuration by the
time it completes (the last observable state is the fully loaded one), but the
replacement is not atomic: it first clears the shared dict and then installs the
three documents one at a time, so a concurrent reader can observe the cleared
(partial) state. -/
theorem c9_reload_amended (α : Type) (old : Configs α) (fs : LoadResults α) :
    (reloadStates old fs).getLast? = some (loadAll fs) ∧
    (⟨none, none, none⟩ : Configs α) ∈ reloadStates old fs := by
  constructor
  · rfl
  · exact List.mem_cons_of_mem _ (List.mem_cons_self _ _)

/-- C9 witness: the amended statement at a concrete configuration. -/
theorem c9_witness :
    (reloadStates (⟨some 1, some 2, some 3⟩ : Configs Nat)
      (⟨4, 5, 6⟩ : LoadResults Nat)).getLast? =
      some (loadAll (⟨4, 5, 6⟩ : LoadResults Nat)) :=
  (c9_reload_amended Nat ⟨some 1, some 2, some 3⟩ ⟨4, 5, 6⟩).1
